import Mathlib

/-!
Shallow embedding of the core logic of the `caie-paper-navigator` browser
extension: the quick-code codec, the field validators, the URL generator
(`src/lib/constants.ts`, `src/lib/url-generator.ts`) and the preference /
form-value store (`src/lib/storage.ts`).  Strings are Lean `String`s;
JavaScript `null`/error returns become `Option`; the ambient current
calendar year (`new Date().getFullYear()`) is passed as an explicit
parameter.
-/

namespace CaiePaper

/-- Entry of the `CURRICULUMS` lookup table (`constants.ts`). -/
structure CurriculumEntry where
  id : String
  label : String
deriving DecidableEq, Repr

/-- The `CURRICULUMS` table from `constants.ts`. -/
def CURRICULUMS : List CurriculumEntry :=
  [⟨"cambridge-international-a-level", "Cambridge International A Level"⟩,
   ⟨"cambridge-igcse", "Cambridge IGCSE"⟩]

/-- Entry of the `SUBJECTS` lookup table (`constants.ts`). -/
structure SubjectEntry where
  id : String
  code : String
  label : String
  curriculum : String
deriving DecidableEq, Repr

/-- The `SUBJECTS` table from `constants.ts`, in source order. -/
def SUBJECTS : List SubjectEntry :=
  [⟨"chemistry-9701", "9701", "Chemistry", "cambridge-international-a-level"⟩,
   ⟨"mathematics-9709", "9709", "Mathematics", "cambridge-international-a-level"⟩,
   ⟨"computer-science-9618", "9618", "Computer Science", "cambridge-international-a-level"⟩,
   ⟨"computer-science-9608", "9608", "Computer Science (Legacy)", "cambridge-international-a-level"⟩,
   ⟨"biology-9700", "9700", "Biology", "cambridge-international-a-level"⟩,
   ⟨"physics-9702", "9702", "Physics", "cambridge-international-a-level"⟩,
   ⟨"economics-9708", "9708", "Economics", "cambridge-international-a-level"⟩,
   ⟨"business-9609", "9609", "Business", "cambridge-international-a-level"⟩,
   ⟨"psychology-9990", "9990", "Psychology", "cambridge-international-a-level"⟩,
   ⟨"mathematics-further-9231", "9231", "Further Mathematics", "cambridge-international-a-level"⟩,
   ⟨"computer-science-0478", "0478", "Computer Science", "cambridge-igcse"⟩,
   ⟨"mathematics-0580", "0580", "Mathematics", "cambridge-igcse"⟩,
   ⟨"sciences-co-ordinated-0654", "0654", "Sciences Co-ordinated", "cambridge-igcse"⟩,
   ⟨"economics-0455", "0455", "Economics", "cambridge-igcse"⟩,
   ⟨"business-studies-0450", "0450", "Business Studies", "cambridge-igcse"⟩,
   ⟨"sociology-9699", "9699", "Sociology", "cambridge-international-a-level"⟩,
   ⟨"sociology-9698", "9698", "Sociology (legacy)", "cambridge-international-a-level"⟩,
   ⟨"media-studies-9607", "9607", "Media Studies", "cambridge-international-a-level"⟩]

/-- Entry of the `seasonS` lookup table (`constants.ts`). -/
structure SeasonEntry where
  id : String
  label : String
  fullName : String
deriving DecidableEq, Repr

/-- The `seasonS` table from `constants.ts`. -/
def seasonS : List SeasonEntry :=
  [⟨"m", "F/M", "February/March"⟩,
   ⟨"s", "M/J", "May/June"⟩,
   ⟨"w", "O/N", "October/November"⟩]

/-- The `FormValues` record (`components/paper-search/types.ts`): the
structured paper identifier as held by the form. -/
structure FormValues where
  curriculum : String
  subject : String
  paperType : String
  variant : String
  season : String
  year : String
deriving DecidableEq, Repr

/-- The `ParsedQuickCode` record (`constants.ts`). -/
structure ParsedQuickCode where
  subjectCode : String
  paperType : String
  variant : String
  season : String
  year : String
deriving DecidableEq, Repr

/-- The `PaperDetails` record (`components/paper-search/types.ts`). -/
structure PaperDetails where
  subjectCode : String
  subjectName : String
  paperNumber : String
  season : String
  year : String
deriving DecidableEq, Repr

/-- The `GeneratedPaperResult` record (`url-generator.ts`). -/
structure GeneratedPaperResult where
  url : String
  paperDetails : PaperDetails
deriving DecidableEq, Repr

/-! ### JavaScript primitives used by the source

`parseInt`, `String.prototype.charAt`, and substring containment are
modelled here.  `jsParseInt` models `parseInt(s)` (radix unspecified) on
its decimal path: skip leading whitespace, optional sign, then a maximal
run of decimal digits; `none` stands for `NaN`.  The hexadecimal `0x`
prefix path of `parseInt` is not modelled: every call site in this
repository feeds it strings of decimal digits (regex-matched `\d` groups
or `"20" + yy`). -/

/-- Decimal value of a list of digit characters (most significant first). -/
def digitsVal (cs : List Char) : Nat :=
  cs.foldl (fun n c => n * 10 + (c.toNat - '0'.toNat)) 0

/-- Model of JavaScript `parseInt(s)` on decimal input: leading whitespace
skipped, optional sign, maximal leading digit run; `none` is `NaN`. -/
def jsParseInt (s : String) : Option Int :=
  match s.data.dropWhile Char.isWhitespace with
  | [] => none
  | c :: rest =>
    if c = '-' then
      let ds := rest.takeWhile Char.isDigit
      if ds.isEmpty then none else some (-(digitsVal ds : Int))
    else if c = '+' then
      let ds := rest.takeWhile Char.isDigit
      if ds.isEmpty then none else some (digitsVal ds : Int)
    else
      let ds := (c :: rest).takeWhile Char.isDigit
      if ds.isEmpty then none else some (digitsVal ds : Int)

/-- Model of JavaScript `s.charAt(i)`: the one-character string at index
`i`, or `""` out of range. -/
def charAtStr (s : String) (i : Nat) : String :=
  match s.data.get? i with
  | some c => String.mk [c]
  | none => ""

/-- Containment of `needle` as a contiguous run of `hay` (character lists). -/
def listContains (needle : List Char) : List Char → Bool
  | [] => needle.isEmpty
  | c :: t => needle.isPrefixOf (c :: t) || listContains needle t

/-- Substring containment, modelling JavaScript `hay.includes(needle)`. -/
def strContains (hay needle : String) : Bool :=
  listContains needle.data hay.data

/-! ### Validators (`constants.ts`) -/

/-- Model of the JavaScript test `/^\d$/.test(value)`: exactly one
decimal digit. -/
def singleDigitTest (value : String) : Bool :=
  match value.data with
  | [c] => c.isDigit
  | _ => false

/-- `validatePaperType` from `constants.ts`: `none` means no error. -/
def validatePaperType (value : String) : Option String :=
  if value == "" then none
  else if value.length != 1 then some "Please enter a valid paper type"
  else if value == "0" then some "Paper type cannot be 0"
  else if !(singleDigitTest value) then some "Paper type must be a number"
  else none

/-- `validateVariant` from `constants.ts`. -/
def validateVariant (value : String) : Option String :=
  if value == "" then none
  else if value.length != 1 then some "Please enter a valid variant"
  else if !(singleDigitTest value) then some "Variant must be a number"
  else none

/-- `validateYear` from `constants.ts`; `currentYear` stands for
`new Date().getFullYear()` evaluated at the call. -/
def validateYear (currentYear : Int) (value : String) : Option String :=
  if value == "" then none
  else
    let yearNum : Option Int :=
      if value.length ≥ 4 then jsParseInt value
      else if value.length == 2 then jsParseInt ("20" ++ value)
      else none
    if value.length ≥ 4 ∨ value.length == 2 then
      match yearNum with
      | none => some "Invalid year format"
      | some n =>
        if n < 2009 then some "Year must be 2009 or later"
        else if n > currentYear then
          some ("Year cannot exceed current year (" ++ toString currentYear ++ ")")
        else none
    else some "Please enter a valid year"

/-- Model of the quick-code regex
`^(\d{4})\/(\d{2})\/(F\/M|M\/J|O\/N)\/(\d{2})$` from `constants.ts`: on a
match, the four capture groups. -/
def matchQuickCode (code : String) : Option (String × String × String × String) :=
  match code.data with
  | [a, b, c, d, '/', e, f, '/', g, h, i, '/', j, k] =>
    if [a, b, c, d].all Char.isDigit && [e, f].all Char.isDigit &&
       ([g, h, i] = ['F', '/', 'M'] ∨ [g, h, i] = ['M', '/', 'J'] ∨
        [g, h, i] = ['O', '/', 'N']) &&
       [j, k].all Char.isDigit then
      some (String.mk [a, b, c, d], String.mk [e, f], String.mk [g, h, i],
            String.mk [j, k])
    else none
  | _ => none

/-- The format-error message of `validateQuickCode`. -/
def quickCodeFormatError : String :=
  "Invalid format. Correct: [Subject Code]/[Paper Number]/[Season]/[Year]"

/-- `validateQuickCode` from `constants.ts`. -/
def validateQuickCode (currentYear : Int) (code : String) : Option String :=
  if code == "" then none
  else
    match matchQuickCode code with
    | none => some quickCodeFormatError
    | some (subjectCode, _, _, yearDigits) =>
      match SUBJECTS.find? (fun s => s.code == subjectCode) with
      | none => some ("Subject with code " ++ subjectCode ++ " is not supported yet")
      | some _ =>
        match jsParseInt ("20" ++ yearDigits) with
        | none => none
        | some fullYear =>
          if fullYear > currentYear then
            some ("Year cannot exceed current year (" ++ toString currentYear ++ ")")
          else if fullYear < 2009 then some "Year must be 2009 or later"
          else none

/-- `parseQuickCode` from `constants.ts`. -/
def parseQuickCode (code : String) : Option ParsedQuickCode :=
  match matchQuickCode code with
  | none => none
  | some (subjectCode, paperNumber, seasonLabel, year) =>
    let seasonId :=
      if seasonLabel == "M/J" then "s"
      else if seasonLabel == "O/N" then "w"
      else if seasonLabel == "F/M" then "m"
      else ""
    some ⟨subjectCode, charAtStr paperNumber 0, charAtStr paperNumber 1,
          seasonId, year⟩

/-! ### URL generator (`url-generator.ts`) -/

/-- `generatePaperUrl` from `url-generator.ts`.  `documentType` ranges
over the `DocumentType` strings `"qp" | "ms" | "er" | "gt"`. -/
def generatePaperUrl (fv : FormValues) (documentType : String) :
    Option GeneratedPaperResult :=
  match SUBJECTS.find? (fun s => s.id == fv.subject) with
  | none => none
  | some selectedSubject =>
    let subjectCode := selectedSubject.code
    let seasonId := fv.season
    let year := "20" ++ fv.year
    let shortYear := fv.year
    let paperNumber := fv.paperType ++ fv.variant
    let paperCode :=
      let base := subjectCode ++ "-" ++ seasonId ++ shortYear ++ "-" ++ documentType
      if documentType == "ms" || documentType == "qp" then
        base ++ "-" ++ paperNumber
      else base
    let url := "https://bestexamhelp.com/exam/" ++ fv.curriculum ++ "/" ++
      fv.subject ++ "/" ++ year ++ "/" ++ paperCode ++ ".php"
    let seasonLabel :=
      match seasonS.find? (fun s => s.id == seasonId) with
      | some seasonObj => seasonObj.label
      | none => ""
    some ⟨url, ⟨selectedSubject.code, selectedSubject.label, paperNumber,
               seasonLabel, shortYear⟩⟩

/-- `generateQuickCode` from `url-generator.ts`: `""` when the subject is
not registered. -/
def generateQuickCode (fv : FormValues) : String :=
  match SUBJECTS.find? (fun s => s.id == fv.subject) with
  | none => ""
  | some selectedSubject =>
    let seasonCode :=
      if fv.season == "s" then "M/J"
      else if fv.season == "w" then "O/N"
      else if fv.season == "m" then "F/M"
      else ""
    let paperNumber := fv.paperType ++ fv.variant
    selectedSubject.code ++ "/" ++ paperNumber ++ "/" ++ seasonCode ++ "/" ++ fv.year

/-- `isFormComplete` from `url-generator.ts`; `none` in `yearNum` models
`NaN`, whose numeric comparisons are all false. -/
def isFormComplete (currentYear : Int) (fv : FormValues) : Bool :=
  let yearNum : Option Int :=
    if fv.year == "" then some 0 else jsParseInt ("20" ++ fv.year)
  !(fv.curriculum == "") && !(fv.subject == "") &&
  (fv.paperType.length == 1) && !(fv.paperType == "0") &&
  (fv.variant.length == 1) && !(fv.season == "") &&
  (fv.year.length == 2) &&
  (match yearNum with | some n => decide (n ≥ 2009) | none => false) &&
  (match yearNum with | some n => decide (n ≤ currentYear) | none => false)

/-- The quick-search submit path of `paper-search.tsx`: `parseQuickCode`
plus the `SUBJECTS` lookup by 4-digit code, producing the full form
identifier (curriculum and subject id come from the matched subject). -/
def decodeQuickCode (code : String) : Option FormValues :=
  match parseQuickCode code with
  | none => none
  | some p =>
    match SUBJECTS.find? (fun s => s.code == p.subjectCode) with
    | none => none
    | some subject =>
      some ⟨subject.curriculum, subject.id, p.paperType, p.variant, p.season, p.year⟩

/-! ### Preference / form store (`storage.ts`)

The persisted `formValues` record is a `Partial<FormValues>`: each field
may be absent.  JavaScript object spread `{...existing, ...values}` is a
field-wise right-biased merge. -/

/-- A persisted `Partial<FormValues>` record: absent fields are `none`. -/
structure StoredFormValues where
  curriculum : Option String
  subject : Option String
  paperType : Option String
  variant : Option String
  season : Option String
  year : Option String
deriving DecidableEq, Repr

/-- The empty object `{}` used when nothing is stored yet. -/
def emptyStoredFormValues : StoredFormValues :=
  ⟨none, none, none, none, none, none⟩

/-- The six field names of `FormValues`. -/
inductive FVField
  | curriculum | subject | paperType | variant | season | year
deriving DecidableEq, Repr

/-- Field projection of a stored record. -/
def StoredFormValues.get (r : StoredFormValues) : FVField → Option String
  | .curriculum => r.curriculum
  | .subject => r.subject
  | .paperType => r.paperType
  | .variant => r.variant
  | .season => r.season
  | .year => r.year

/-- Object spread `{...existing, ...values}`: a field present in `values`
overrides; otherwise the field of `existing` is kept. -/
def mergeFormValues (existing values : StoredFormValues) : StoredFormValues :=
  ⟨values.curriculum <|> existing.curriculum,
   values.subject <|> existing.subject,
   values.paperType <|> existing.paperType,
   values.variant <|> existing.variant,
   values.season <|> existing.season,
   values.year <|> existing.year⟩

/-- `saveFormValues` from `storage.ts`: reads the `formValues` key
(an absent record is `{}`), shallow-merges the partial update over it,
and the merge result is written back; the value returned here is the
record the store holds after the write. -/
def saveFormValues (stored : Option StoredFormValues)
    (values : StoredFormValues) : StoredFormValues :=
  let existingValues := stored.getD emptyStoredFormValues
  mergeFormValues existingValues values

/-- The `AppPreferences` record from `storage.ts`. -/
structure AppPreferences where
  hidePinRecommendation : Bool
  showDialogOnLoad : Bool
  formValues : Option FormValues
deriving DecidableEq, Repr

/-- A value held under a key of `chrome.storage.local` as this extension
uses it: a boolean preference, a saved form record, or `null`. -/
inductive ChromeVal
  | vbool (b : Bool)
  | vform (fv : FormValues)
  | vnull
deriving DecidableEq, Repr

/-- `loadPreferences` from `storage.ts`, `chrome.storage.local` branch:
`get key = none` models an absent key. -/
def chromeLoadPreferences (get : String → Option ChromeVal) : AppPreferences :=
  { hidePinRecommendation := get "hidePinRecommendation" == some (ChromeVal.vbool true)
    showDialogOnLoad :=
      match get "showDialogOnLoad" with
      | some (ChromeVal.vbool b) => b
      | _ => true
    formValues :=
      match get "formValues" with
      | some (ChromeVal.vform fv) => some fv
      | _ => none }

/-- `loadPreferences` from `storage.ts`, `localStorage` branch: stored
values are strings, `get key = none` models `getItem` returning `null`,
and `parseJsonFormValues` models `JSON.parse` into `FormValues`
(`none` = the parse throws, caught by the surrounding `try`, which
resolves the full default preferences). -/
def localLoadPreferences (get : String → Option String)
    (parseJsonFormValues : String → Option FormValues) : AppPreferences :=
  let hidePin := get "hidePinRecommendation" == some "true"
  let showDialog := get "showDialogOnLoad" != some "false"
  match get "formValues" with
  | none => ⟨hidePin, showDialog, none⟩
  | some s =>
    match parseJsonFormValues s with
    | some fv => ⟨hidePin, showDialog, some fv⟩
    | none => ⟨false, true, none⟩

/-! ### Helper lemmas -/

theorem digit_not_whitespace (c : Char) (h : c.isDigit = true) :
    c.isWhitespace = false := by
  by_contra hw
  rw [Bool.not_eq_false] at hw
  simp only [Char.isWhitespace, Bool.or_eq_true, beq_iff_eq,
    decide_eq_true_eq] at hw
  rcases hw with ((rfl | rfl) | rfl) | rfl <;> exact absurd h (by decide)

theorem jsParseInt_digits (cs : List Char) (h1 : cs ≠ [])
    (h2 : cs.all Char.isDigit = true) :
    jsParseInt (String.mk cs) = some ((digitsVal cs : Nat) : Int) := by
  match cs, h1 with
  | c :: rest, _ =>
    have hall : ∀ x ∈ c :: rest, Char.isDigit x = true := by
      simpa [List.all_eq_true] using h2
    have hc : c.isDigit = true := hall c (List.mem_cons_self c rest)
    have hdrop : (c :: rest).dropWhile Char.isWhitespace = c :: rest := by
      rw [List.dropWhile_cons, digit_not_whitespace c hc]
      simp
    have htake : (c :: rest).takeWhile Char.isDigit = c :: rest :=
      List.takeWhile_eq_self_iff.mpr hall
    have hcm : c ≠ '-' := by rintro rfl; exact absurd hc (by decide)
    have hcp : c ≠ '+' := by rintro rfl; exact absurd hc (by decide)
    show jsParseInt (String.mk (c :: rest)) = _
    unfold jsParseInt
    show (match (c :: rest).dropWhile Char.isWhitespace with
      | [] => none
      | c :: rest =>
        if c = '-' then
          let ds := rest.takeWhile Char.isDigit
          if ds.isEmpty then none else some (-(digitsVal ds : Int))
        else if c = '+' then
          let ds := rest.takeWhile Char.isDigit
          if ds.isEmpty then none else some (digitsVal ds : Int)
        else
          let ds := (c :: rest).takeWhile Char.isDigit
          if ds.isEmpty then none else some (digitsVal ds : Int)) = _
    rw [hdrop]
    simp only [if_neg hcm, if_neg hcp, htake, List.isEmpty_cons]
    rfl

theorem validateYear_two_digit (currentYear : Int) (value : String) (n : Int)
    (h2 : value.length = 2) (hp : jsParseInt ("20" ++ value) = some n) :
    validateYear currentYear value =
      (if n < 2009 then some "Year must be 2009 or later"
       else if n > currentYear then
         some ("Year cannot exceed current year (" ++ toString currentYear ++ ")")
       else none) := by
  have hne : value ≠ "" := by
    intro hEq
    rw [hEq] at h2
    simp at h2
  unfold validateYear
  simp only [beq_iff_eq, hne, if_false, h2, hp]
  norm_num

theorem validateYear_long (currentYear : Int) (value : String) (n : Int)
    (h4 : 4 ≤ value.length) (hp : jsParseInt value = some n) :
    validateYear currentYear value =
      (if n < 2009 then some "Year must be 2009 or later"
       else if n > currentYear then
         some ("Year cannot exceed current year (" ++ toString currentYear ++ ")")
       else none) := by
  have hne : value ≠ "" := by
    intro hEq
    rw [hEq] at h4
    simp at h4
  unfold validateYear
  simp only [beq_iff_eq, hne, if_false, hp]
  rw [if_pos h4, if_pos (Or.inl h4)]

theorem jsParseInt_twenty_prepend (value : String)
    (hd : value.data.all Char.isDigit = true) :
    jsParseInt ("20" ++ value) =
      some ((digitsVal ('2' :: '0' :: value.data) : Nat) : Int) := by
  have hEq : ("20" ++ value) = String.mk ('2' :: '0' :: value.data) :=
    String.ext (by simp [String.data_append])
  rw [hEq]
  exact jsParseInt_digits _ (by simp) (by simp [List.all_cons, hd])

/-! ### Claim theorems -/

/-- C10: every field-level validator treats the empty string as
unvalidated rather than invalid: `validatePaperType ""`,
`validateVariant ""`, `validateYear ""` and `validateQuickCode ""` all
return no error, whatever the current calendar year. -/
theorem C10_empty_input_unvalidated :
    validatePaperType "" = none ∧ validateVariant "" = none ∧
    (∀ currentYear : Int, validateYear currentYear "" = none) ∧
    (∀ currentYear : Int, validateQuickCode currentYear "" = none) :=
  ⟨rfl, rfl, fun _ => rfl, fun _ => rfl⟩

/-- C5 as stated quantifies over every input string, but the empty string
refutes it: `""` has length `≠ 1`, so the claim demands a validation
error, yet `validatePaperType ""` returns `none`. -/
theorem C5_counterexample :
    ("" : String).length ≠ 1 ∧ validatePaperType "" = none :=
  ⟨by decide, rfl⟩

/-- C5 (amended to nonempty inputs): for every nonempty string,
`validatePaperType` fails exactly when the length is not 1, the string
is non-numeric, or it equals `"0"`; in particular `"0"` fails,
`"5"` passes, and `"10"` fails with the length error. -/
theorem C5_paper_type_validation (value : String) (h : value ≠ "") :
    ((validatePaperType value = none) ↔
      (value.length = 1 ∧ value.data.all Char.isDigit = true ∧ value ≠ "0")) ∧
    validatePaperType "0" = some "Paper type cannot be 0" ∧
    validatePaperType "5" = none ∧
    validatePaperType "10" = some "Please enter a valid paper type" := by
  refine ⟨?_, rfl, rfl, rfl⟩
  obtain ⟨cs⟩ := value
  cases cs with
  | nil => exact absurd rfl h
  | cons c t =>
    cases t with
    | nil =>
      by_cases hc0 : c = '0'
      · subst hc0
        have hv : validatePaperType (String.mk ['0']) = some "Paper type cannot be 0" := rfl
        simp [hv, String.ext_iff]
      · by_cases hd : c.isDigit
        · have hv : validatePaperType (String.mk [c]) = none := by
            unfold validatePaperType singleDigitTest
            simp [String.ext_iff, hc0, hd]
          simp [hv, String.ext_iff, hc0, hd]
        · have hv : validatePaperType (String.mk [c]) = some "Paper type must be a number" := by
            unfold validatePaperType singleDigitTest
            simp [String.ext_iff, hc0, hd]
          simp [hv, hd]
    | cons c2 t2 =>
      have hv : validatePaperType (String.mk (c :: c2 :: t2)) =
          some "Please enter a valid paper type" := by
        unfold validatePaperType
        simp [String.ext_iff, String.length]
      have hlen : (String.mk (c :: c2 :: t2)).length ≠ 1 := by
        simp [String.length]
      simp [hv, hlen]

/-- C4: `validateYear` accepts a 2-digit numeric string by expanding it
to `20XX` and a numeric string of 4 or more digits as-is, failing exactly
when the resulting year is below 2009 or above the current calendar year;
in particular `"08"` fails with the 2009 lower-bound error, `"09"`
passes, and the 4-digit string denoting `currentYear + 1` fails with the
upper-bound error. -/
theorem C4_year_validation :
    (∀ (currentYear : Int) (value : String),
       value.data.all Char.isDigit = true →
       ((value.length = 2 →
          (validateYear currentYear value = none ↔
            2009 ≤ (digitsVal ('2' :: '0' :: value.data) : Int) ∧
            (digitsVal ('2' :: '0' :: value.data) : Int) ≤ currentYear)) ∧
        (4 ≤ value.length →
          (validateYear currentYear value = none ↔
            2009 ≤ (digitsVal value.data : Int) ∧
            (digitsVal value.data : Int) ≤ currentYear)))) ∧
    (∀ currentYear : Int,
       validateYear currentYear "08" = some "Year must be 2009 or later") ∧
    (∀ currentYear : Int, 2009 ≤ currentYear →
       validateYear currentYear "09" = none) ∧
    (∀ (currentYear : Int) (s : String),
       s.data.all Char.isDigit = true → 4 ≤ s.length →
       (digitsVal s.data : Int) = currentYear + 1 → 2009 ≤ currentYear →
       validateYear currentYear s =
         some ("Year cannot exceed current year (" ++ toString currentYear ++ ")")) := by
  refine ⟨?_, ?_, ?_, ?_⟩
  · intro currentYear value hd
    constructor
    · intro h2
      rw [validateYear_two_digit currentYear value _ h2
        (jsParseInt_twenty_prepend value hd)]
      split_ifs with ha hb
      · simp
        omega
      · simp
        omega
      · simp
        omega
    · intro h4
      have hne : value.data ≠ [] := by
        intro hEq
        rw [show value = String.mk value.data from rfl, hEq] at h4
        simp at h4
      have hp : jsParseInt value = some (digitsVal value.data : Int) := by
        rw [show value = String.mk value.data from rfl]
        exact jsParseInt_digits _ hne hd
      rw [validateYear_long currentYear value _ h4 hp]
      split_ifs with ha hb
      · simp
        omega
      · simp
        omega
      · simp
        omega
  · intro currentYear
    rw [validateYear_two_digit currentYear "08" 2008 rfl (by decide)]
    norm_num
  · intro currentYear h
    rw [validateYear_two_digit currentYear "09" 2009 rfl (by decide)]
    have h1 : ¬((2009 : Int) < 2009) := by norm_num
    have h2 : ¬((2009 : Int) > currentYear) := by omega
    rw [if_neg h1, if_neg h2]
  · intro currentYear s hd h4 hval hcy
    have hne : s.data ≠ [] := by
      intro hEq
      rw [show s = String.mk s.data from rfl, hEq] at h4
      simp at h4
    have hp : jsParseInt s = some (digitsVal s.data : Int) := by
      rw [show s = String.mk s.data from rfl]
      exact jsParseInt_digits _ hne hd
    rw [validateYear_long currentYear s _ h4 hp, hval]
    have h1 : ¬(currentYear + 1 < 2009) := by omega
    have h2 : currentYear + 1 > currentYear := by omega
    rw [if_neg h1, if_pos h2]

/-- Witness for C4 at current year 2025: the iff for the 2-digit input
`"20"`, and the three boundary scenarios. -/
theorem C4_witness :
    ("20" : String).data.all Char.isDigit = true ∧
    (validateYear 2025 "20" = none ↔
      2009 ≤ (digitsVal ['2', '0', '2', '0'] : Int) ∧
      (digitsVal ['2', '0', '2', '0'] : Int) ≤ 2025) ∧
    validateYear 2025 "08" = some "Year must be 2009 or later" ∧
    validateYear 2025 "09" = none ∧
    validateYear 2025 "2026" =
      some ("Year cannot exceed current year (" ++ toString (2025 : Int) ++ ")") := by
  obtain ⟨h1, h2, h3, h4⟩ := C4_year_validation
  exact ⟨by decide, (h1 2025 "20" (by decide)).1 rfl, h2 2025,
    h3 2025 (by decide), h4 2025 "2026" (by decide) (by decide) (by decide) (by decide)⟩

/-- Witness for C5 at the concrete nonempty input `"7"`. -/
theorem C5_witness :
    ("7" : String) ≠ "" ∧
    ((validatePaperType "7" = none) ↔
      (("7" : String).length = 1 ∧ ("7" : String).data.all Char.isDigit = true ∧
       ("7" : String) ≠ "0")) ∧
    validatePaperType "0" = some "Paper type cannot be 0" ∧
    validatePaperType "5" = none ∧
    validatePaperType "10" = some "Please enter a valid paper type" :=
  ⟨by decide, C5_paper_type_validation "7" (by decide)⟩

/-- C8: when the preference keys are absent from storage,
`loadPreferences` yields `showDialogOnLoad = true` and
`hidePinRecommendation = false`, in both backends, and its `formValues`
component is the saved record when one is readable and `none` when the
key is absent (or, in the localStorage backend, when the stored JSON is
corrupt and its parse throws). -/
theorem C8_load_preference_defaults :
    (∀ get : String → Option ChromeVal,
       get "hidePinRecommendation" = none → get "showDialogOnLoad" = none →
       (chromeLoadPreferences get).showDialogOnLoad = true ∧
       (chromeLoadPreferences get).hidePinRecommendation = false ∧
       (∀ fv, get "formValues" = some (ChromeVal.vform fv) →
          (chromeLoadPreferences get).formValues = some fv) ∧
       ((get "formValues" = none ∨ get "formValues" = some ChromeVal.vnull) →
          (chromeLoadPreferences get).formValues = none)) ∧
    (∀ (get : String → Option String) (parse : String → Option FormValues),
       get "hidePinRecommendation" = none → get "showDialogOnLoad" = none →
       (localLoadPreferences get parse).showDialogOnLoad = true ∧
       (localLoadPreferences get parse).hidePinRecommendation = false ∧
       (∀ s fv, get "formValues" = some s → parse s = some fv →
          (localLoadPreferences get parse).formValues = some fv) ∧
       (get "formValues" = none →
          (localLoadPreferences get parse).formValues = none) ∧
       (∀ s, get "formValues" = some s → parse s = none →
          (localLoadPreferences get parse).formValues = none)) := by
  constructor
  · intro get h1 h2
    refine ⟨?_, ?_, ?_, ?_⟩
    · simp [chromeLoadPreferences, h2]
    · simp [chromeLoadPreferences, h1]
    · intro fv hf
      simp [chromeLoadPreferences, hf]
    · rintro (hf | hf) <;> simp [chromeLoadPreferences, hf]
  · intro get parse h1 h2
    refine ⟨?_, ?_, ?_, ?_, ?_⟩
    · cases hf : get "formValues" with
      | none => simp [localLoadPreferences, h2, hf]
      | some s => cases hp : parse s <;> simp [localLoadPreferences, h2, hf, hp]
    · cases hf : get "formValues" with
      | none => simp [localLoadPreferences, h1, hf]
      | some s => cases hp : parse s <;> simp [localLoadPreferences, h1, hf, hp]
    · intro s fv hf hp
      simp [localLoadPreferences, hf, hp]
    · intro hf
      simp [localLoadPreferences, hf]
    · intro s hf hp
      simp [localLoadPreferences, hf, hp]

/-- Witness for C8: both backends loaded from entirely empty stores. -/
theorem C8_witness :
    (chromeLoadPreferences (fun _ => none)).showDialogOnLoad = true ∧
    (chromeLoadPreferences (fun _ => none)).hidePinRecommendation = false ∧
    (chromeLoadPreferences (fun _ => none)).formValues = none ∧
    (localLoadPreferences (fun _ => none) (fun _ => none)).showDialogOnLoad = true ∧
    (localLoadPreferences (fun _ => none) (fun _ => none)).hidePinRecommendation = false ∧
    (localLoadPreferences (fun _ => none) (fun _ => none)).formValues = none := by
  obtain ⟨hc, hl⟩ := C8_load_preference_defaults
  obtain ⟨c1, c2, -, c4⟩ := hc (fun _ => none) rfl rfl
  obtain ⟨l1, l2, -, l4, -⟩ := hl (fun _ => none) (fun _ => none) rfl rfl
  exact ⟨c1, c2, c4 (Or.inl rfl), l1, l2, l4 rfl⟩

/-- C9: `saveFormValues` is a read-merge-write: any field of the stored
record that the partial update does not set keeps its previous value. -/
theorem C9_merge_write_frame (stored values : StoredFormValues) (f : FVField)
    (h : values.get f = none) :
    (saveFormValues (some stored) values).get f = stored.get f := by
  cases f <;>
    simp_all [saveFormValues, mergeFormValues, StoredFormValues.get, Option.getD]

/-- Witness for C9: a concrete partial update that sets only the year
leaves a stored curriculum untouched. -/
theorem C9_witness :
    (⟨none, none, none, none, none, some "21"⟩ : StoredFormValues).get
        FVField.curriculum = none ∧
    (saveFormValues (some ⟨some "cambridge-igcse", none, none, none, none, some "20"⟩)
        ⟨none, none, none, none, none, some "21"⟩).get FVField.curriculum =
      (⟨some "cambridge-igcse", none, none, none, none, some "20"⟩ :
        StoredFormValues).get FVField.curriculum :=
  ⟨rfl, C9_merge_write_frame _ _ FVField.curriculum rfl⟩

/-- An identifier whose subject id is registered in no curriculum. -/
def fvUnregistered : FormValues :=
  ⟨"cambridge-igcse", "unregistered-subject", "4", "2", "s", "20"⟩

/-- C7 as stated is refuted at a concrete input: this identifier's
subject is not a registered subject of any curriculum (the `SUBJECTS`
lookup fails), yet `isFormComplete` returns `true` — the code checks
only that the subject field is nonempty. -/
theorem C7_counterexample :
    isFormComplete 2025 fvUnregistered = true ∧
    SUBJECTS.find? (fun s => s.id == fvUnregistered.subject) = none := by
  decide

/-- C7 (amended): `isFormComplete` returns true iff curriculum, subject
and season are nonempty, paperType is a single character other than
`"0"`, variant is a single character, the year has exactly two
characters, and `parseInt("20" + year)` lies in `[2009, currentYear]`.
It does not check that paperType or variant are digits, nor that the
subject is registered or belongs to the selected curriculum. -/
theorem C7_completeness_check (currentYear : Int) (fv : FormValues) :
    isFormComplete currentYear fv = true ↔
      (fv.curriculum ≠ "" ∧ fv.subject ≠ "" ∧
       fv.paperType.length = 1 ∧ fv.paperType ≠ "0" ∧
       fv.variant.length = 1 ∧ fv.season ≠ "" ∧
       fv.year.length = 2 ∧
       (∃ n : Int, jsParseInt ("20" ++ fv.year) = some n ∧
          2009 ≤ n ∧ n ≤ currentYear)) := by
  unfold isFormComplete
  by_cases hy : fv.year = ""
  · simp [hy]
  · cases hp : jsParseInt ("20" ++ fv.year) with
    | none => simp [hy, hp]
    | some n =>
      simp [hy, hp]
      tauto

/-- The identifier decoded from the quick code `"9702/42/M/J/20"`. -/
def fvPhysics : FormValues :=
  ⟨"cambridge-international-a-level", "physics-9702", "4", "2", "s", "20"⟩

/-- C6: for a fixed identifier, the question-paper and mark-scheme URLs
differ only in the document-type tag segment — both are `pre ++ tag ++
post` for a common prefix and suffix — and generation for `"qp"` fails
exactly when generation for `"ms"` fails. -/
theorem C6_document_type_equivalence (fv : FormValues) :
    ((generatePaperUrl fv "qp" = none) ↔ (generatePaperUrl fv "ms" = none)) ∧
    (∀ r₁ r₂, generatePaperUrl fv "qp" = some r₁ →
       generatePaperUrl fv "ms" = some r₂ →
       ∃ pre post, r₁.url = pre ++ ("qp" ++ post) ∧
         r₂.url = pre ++ ("ms" ++ post)) := by
  cases hfind : SUBJECTS.find? (fun s => s.id == fv.subject) with
  | none =>
    refine ⟨by simp [generatePaperUrl, hfind], ?_⟩
    intro r₁ r₂ h1 h2
    rw [generatePaperUrl, hfind] at h1
    exact absurd h1 (by simp)
  | some subj =>
    refine ⟨by simp [generatePaperUrl, hfind], ?_⟩
    intro r₁ r₂ h1 h2
    rw [generatePaperUrl, hfind] at h1
    rw [generatePaperUrl, hfind] at h2
    simp only [Option.some.injEq] at h1 h2
    subst h1
    subst h2
    refine ⟨"https://bestexamhelp.com/exam/" ++ fv.curriculum ++ "/" ++
      fv.subject ++ "/" ++ ("20" ++ fv.year) ++ "/" ++
      (subj.code ++ "-" ++ fv.season ++ fv.year ++ "-"),
      "-" ++ (fv.paperType ++ fv.variant) ++ ".php", ?_, ?_⟩
    · rw [if_pos (show ("qp" == "ms" || "qp" == "qp") = true from rfl)]
      simp only [String.append_assoc]
    · rw [if_pos (show ("ms" == "ms" || "ms" == "qp") = true from rfl)]
      simp only [String.append_assoc]

/-- Witness for C6 at the concrete identifier `fvPhysics`: both URLs are
generated and share a prefix and suffix around the document-type tag. -/
theorem C6_witness :
    ∃ pre post r₁ r₂,
      generatePaperUrl fvPhysics "qp" = some r₁ ∧
      generatePaperUrl fvPhysics "ms" = some r₂ ∧
      r₁.url = pre ++ ("qp" ++ post) ∧ r₂.url = pre ++ ("ms" ++ post) := by
  obtain ⟨-, h⟩ := C6_document_type_equivalence fvPhysics
  obtain ⟨pre, post, h1, h2⟩ := h _ _ rfl rfl
  exact ⟨pre, post, _, _, rfl, rfl, h1, h2⟩

/-- C3: the quick code `"9702/42/M/J/20"` decodes to subject code 9702,
paper type 4, variant 2, season id `s`, year 20; code 9702 resolves to
the subject labelled Physics under the Cambridge International A Level
curriculum; the decoded identifier is complete for every current
calendar year from 2020 on; and the generated question-paper URL
contains `"9702"`, `"s20"` and the paper-number block `"42"`. -/
theorem C3_physics_scenario (currentYear : Int) (h : 2020 ≤ currentYear) :
    parseQuickCode "9702/42/M/J/20" = some ⟨"9702", "4", "2", "s", "20"⟩ ∧
    SUBJECTS.find? (fun s => s.code == "9702") =
      some ⟨"physics-9702", "9702", "Physics", "cambridge-international-a-level"⟩ ∧
    decodeQuickCode "9702/42/M/J/20" = some fvPhysics ∧
    isFormComplete currentYear fvPhysics = true ∧
    (∃ r, generatePaperUrl fvPhysics "qp" = some r ∧
       strContains r.url "9702" = true ∧ strContains r.url "s20" = true ∧
       strContains r.url "42" = true) := by
  refine ⟨by decide, by decide, by decide, ?_, ?_⟩
  · show decide ((2020 : Int) ≤ currentYear) = true
    exact decide_eq_true h
  · exact ⟨_, rfl, by decide, by decide, by decide⟩

/-- Witness for C3 at current year 2025. -/
theorem C3_witness :
    (2020 : Int) ≤ 2025 ∧
    (parseQuickCode "9702/42/M/J/20" = some ⟨"9702", "4", "2", "s", "20"⟩ ∧
     SUBJECTS.find? (fun s => s.code == "9702") =
       some ⟨"physics-9702", "9702", "Physics", "cambridge-international-a-level"⟩ ∧
     decodeQuickCode "9702/42/M/J/20" = some fvPhysics ∧
     isFormComplete 2025 fvPhysics = true ∧
     (∃ r, generatePaperUrl fvPhysics "qp" = some r ∧
        strContains r.url "9702" = true ∧ strContains r.url "s20" = true ∧
        strContains r.url "42" = true)) :=
  ⟨by decide, C3_physics_scenario 2025 (by decide)⟩

theorem string_append_ne_of_head (a b c : String) (ha : a.data ≠ [])
    (h : a.data.head? ≠ c.data.head?) : a ++ b ≠ c := by
  intro hEq
  apply h
  rw [← hEq, String.data_append, List.head?_append_of_ne_nil _ ha]

theorem listContains_of_prefix (s hay : List Char) (h : s.isPrefixOf hay = true) :
    listContains s hay = true := by
  cases hay with
  | nil =>
    cases s with
    | nil => rfl
    | cons c t => simp [List.isPrefixOf] at h
  | cons c t => simp [listContains, h]

theorem listContains_append (pre s post : List Char) :
    listContains s (pre ++ (s ++ post)) = true := by
  induction pre with
  | nil =>
    apply listContains_of_prefix
    rw [List.isPrefixOf_iff_prefix]
    exact List.prefix_append s post
  | cons p ps ih =>
    rw [List.cons_append, listContains]
    simp [ih]

theorem strContains_append (a s b : String) :
    strContains (a ++ (s ++ b)) s = true := by
  unfold strContains
  rw [String.data_append, String.data_append]
  exact listContains_append a.data s.data b.data

theorem validateQuickCode_matched (currentYear : Int) (code sc pp ss yy : String)
    (hne : code ≠ "") (hm : matchQuickCode code = some (sc, pp, ss, yy)) :
    validateQuickCode currentYear code =
      (match SUBJECTS.find? (fun s => s.code == sc) with
       | none => some ("Subject with code " ++ sc ++ " is not supported yet")
       | some _ =>
         match jsParseInt ("20" ++ yy) with
         | none => none
         | some fullYear =>
           if fullYear > currentYear then
             some ("Year cannot exceed current year (" ++ toString currentYear ++ ")")
           else if fullYear < 2009 then some "Year must be 2009 or later"
           else none) := by
  unfold validateQuickCode
  simp [beq_iff_eq, hne, hm]

/-- C2 as stated quantifies over every input string, but the empty
string refutes it: `""` fails the quick-code grammar, so the claim
demands a format error, yet `validateQuickCode` returns no error
for it. -/
theorem C2_counterexample :
    matchQuickCode "" = none ∧ validateQuickCode 2025 "" = none :=
  ⟨rfl, rfl⟩

/-- C2 (amended to nonempty inputs): for every nonempty string,
`validateQuickCode` returns the format error exactly when the string
fails the quick-code grammar; a grammar-matching string whose 4-digit
subject code is unregistered yields the unknown-subject error containing
that code; and `"0000/11/M/J/20"` yields the unknown-subject error
naming `"0000"`. -/
theorem C2_quick_code_errors (currentYear : Int) (code : String) (h : code ≠ "") :
    ((validateQuickCode currentYear code = some quickCodeFormatError) ↔
      matchQuickCode code = none) ∧
    (∀ sc pp ss yy, matchQuickCode code = some (sc, pp, ss, yy) →
       SUBJECTS.find? (fun s => s.code == sc) = none →
       validateQuickCode currentYear code =
         some ("Subject with code " ++ sc ++ " is not supported yet") ∧
       strContains ("Subject with code " ++ sc ++ " is not supported yet") sc = true) ∧
    validateQuickCode currentYear "0000/11/M/J/20" =
      some "Subject with code 0000 is not supported yet" := by
  refine ⟨⟨?_, ?_⟩, ?_, ?_⟩
  · intro hv
    by_contra hm
    obtain ⟨⟨sc, pp, ss, yy⟩, hmm⟩ := Option.ne_none_iff_exists'.mp hm
    rw [validateQuickCode_matched currentYear code sc pp ss yy h hmm] at hv
    cases hfind : SUBJECTS.find? (fun s => s.code == sc) with
    | none =>
      simp only [hfind, Option.some.injEq] at hv
      have : "Subject with code " ++ (sc ++ " is not supported yet") ≠
          quickCodeFormatError :=
        string_append_ne_of_head _ _ _ (by decide) (by decide)
      rw [← String.append_assoc] at this
      exact this hv
    | some subj =>
      simp only [hfind] at hv
      cases hp : jsParseInt ("20" ++ yy) with
      | none =>
        simp only [hp] at hv
        exact Option.noConfusion hv
      | some fullYear =>
        simp only [hp] at hv
        split_ifs at hv with h1 h2
        · simp only [Option.some.injEq] at hv
          have : "Year cannot exceed current year (" ++
              (toString currentYear ++ ")") ≠ quickCodeFormatError :=
            string_append_ne_of_head _ _ _ (by decide) (by decide)
          rw [← String.append_assoc] at this
          exact this hv
        · simp only [Option.some.injEq] at hv
          exact absurd hv (by decide)
  · intro hm
    unfold validateQuickCode
    simp [beq_iff_eq, h, hm, quickCodeFormatError]
  · intro sc pp ss yy hm hfind
    rw [validateQuickCode_matched currentYear code sc pp ss yy h hm, hfind]
    refine ⟨rfl, ?_⟩
    rw [String.append_assoc]
    exact strContains_append _ _ _
  · have hm : matchQuickCode "0000/11/M/J/20" =
        some ("0000", "11", "M/J", "20") := by decide
    rw [validateQuickCode_matched currentYear "0000/11/M/J/20" "0000" "11"
      "M/J" "20" (by decide) hm]
    have hfind : SUBJECTS.find? (fun s => s.code == "0000") = none := by decide
    rw [hfind]
    rfl

/-- Witness for C2: the unknown-subject scenario at the concrete quick
code `"0000/11/M/J/20"` and current year 2025. -/
theorem C2_witness :
    ("0000/11/M/J/20" : String) ≠ "" ∧
    matchQuickCode "0000/11/M/J/20" = some ("0000", "11", "M/J", "20") ∧
    SUBJECTS.find? (fun s => s.code == "0000") = none ∧
    validateQuickCode 2025 "0000/11/M/J/20" =
      some ("Subject with code " ++ "0000" ++ " is not supported yet") ∧
    strContains ("Subject with code " ++ "0000" ++ " is not supported yet")
      "0000" = true := by
  obtain ⟨-, h2, -⟩ := C2_quick_code_errors 2025 "0000/11/M/J/20" (by decide)
  obtain ⟨ha, hb⟩ := h2 "0000" "11" "M/J" "20" (by decide) (by decide)
  exact ⟨by decide, by decide, by decide, ha, hb⟩

theorem subjects_code_props :
    ∀ s ∈ SUBJECTS, s.code.length = 4 ∧ s.code.data.all Char.isDigit = true := by
  decide

theorem subjects_find_id :
    ∀ s ∈ SUBJECTS, SUBJECTS.find? (fun t => t.id == s.id) = some s := by
  decide

theorem subjects_find_code :
    ∀ s ∈ SUBJECTS, SUBJECTS.find? (fun t => t.code == s.code) = some s := by
  decide

theorem string_data_four (s : String) (h : s.length = 4) :
    ∃ a b c d, s.data = [a, b, c, d] := by
  obtain ⟨cs⟩ := s
  have h4 : cs.length = 4 := h
  match cs, h4 with
  | [a, b, c, d], _ => exact ⟨a, b, c, d, rfl⟩
  | [], h4 => simp at h4
  | [_], h4 => simp at h4
  | [_, _], h4 => simp at h4
  | [_, _, _], h4 => simp at h4
  | _ :: _ :: _ :: _ :: _ :: t, h4 => simp at h4

theorem string_data_two (s : String) (h : s.length = 2) :
    ∃ a b, s.data = [a, b] := by
  obtain ⟨cs⟩ := s
  have h2 : cs.length = 2 := h
  match cs, h2 with
  | [a, b], _ => exact ⟨a, b, rfl⟩
  | [], h2 => simp at h2
  | [_], h2 => simp at h2
  | _ :: _ :: _ :: t, h2 => simp at h2

theorem singleDigitTest_inv (value : String) (h : singleDigitTest value = true) :
    ∃ c, value.data = [c] ∧ c.isDigit = true := by
  unfold singleDigitTest at h
  split at h
  next c heq => exact ⟨c, heq, h⟩
  next => exact Bool.noConfusion h

theorem matchQuickCode_of_data (code : String) (a b c d e f g h i j k : Char)
    (hdata : code.data = [a, b, c, d, '/', e, f, '/', g, h, i, '/', j, k])
    (h1 : [a, b, c, d].all Char.isDigit = true)
    (h2 : [e, f].all Char.isDigit = true)
    (h3 : [g, h, i] = ['F', '/', 'M'] ∨ [g, h, i] = ['M', '/', 'J'] ∨
      [g, h, i] = ['O', '/', 'N'])
    (h4 : [j, k].all Char.isDigit = true) :
    matchQuickCode code =
      some (String.mk [a, b, c, d], String.mk [e, f], String.mk [g, h, i],
        String.mk [j, k]) := by
  unfold matchQuickCode
  rw [hdata]
  rcases h3 with h3 | h3 | h3 <;> simp [h1, h2, h3, h4]

theorem matchQuickCode_inv (code sc pp ss yy : String)
    (hm : matchQuickCode code = some (sc, pp, ss, yy)) :
    ∃ a b c d e f g h i j k,
      code.data = [a, b, c, d, '/', e, f, '/', g, h, i, '/', j, k] ∧
      sc = String.mk [a, b, c, d] ∧ pp = String.mk [e, f] ∧
      ss = String.mk [g, h, i] ∧ yy = String.mk [j, k] ∧
      [a, b, c, d].all Char.isDigit = true ∧
      [e, f].all Char.isDigit = true ∧
      ([g, h, i] = ['F', '/', 'M'] ∨ [g, h, i] = ['M', '/', 'J'] ∨
       [g, h, i] = ['O', '/', 'N']) ∧
      [j, k].all Char.isDigit = true := by
  unfold matchQuickCode at hm
  split at hm
  next a b c d e f g h i j k heq =>
    split at hm
    next hcond =>
      simp only [Option.some.injEq, Prod.mk.injEq] at hm
      obtain ⟨h1, h2, h3, h4⟩ := hm
      simp only [Bool.and_eq_true, decide_eq_true_eq] at hcond
      exact ⟨a, b, c, d, e, f, g, h, i, j, k, heq, h1.symm, h2.symm, h3.symm,
        h4.symm, hcond.1.1.1, hcond.1.1.2, hcond.1.2, hcond.2⟩
    next => exact Option.noConfusion hm
  next => exact Option.noConfusion hm

theorem parseQuickCode_inv (code : String) (p : ParsedQuickCode)
    (hp : parseQuickCode code = some p) :
    ∃ a b c d e f g h i j k,
      code.data = [a, b, c, d, '/', e, f, '/', g, h, i, '/', j, k] ∧
      p.subjectCode = String.mk [a, b, c, d] ∧
      p.paperType = String.mk [e] ∧ p.variant = String.mk [f] ∧
      p.year = String.mk [j, k] ∧
      (([g, h, i] = ['F', '/', 'M'] ∧ p.season = "m") ∨
       ([g, h, i] = ['M', '/', 'J'] ∧ p.season = "s") ∨
       ([g, h, i] = ['O', '/', 'N'] ∧ p.season = "w")) := by
  unfold parseQuickCode at hp
  cases hm : matchQuickCode code with
  | none =>
    rw [hm] at hp
    exact Option.noConfusion hp
  | some q =>
    obtain ⟨sc, pp, ss, yy⟩ := q
    obtain ⟨a, b, c, d, e, f, g, h, i, j, k, hdata, hsc, hpp, hss, hyy,
      hd1, hd2, hseason, hd4⟩ := matchQuickCode_inv code sc pp ss yy hm
    subst hsc hpp hss hyy
    simp only [hm, Option.some.injEq] at hp
    subst hp
    refine ⟨a, b, c, d, e, f, g, h, i, j, k, hdata, rfl, rfl, rfl, rfl, ?_⟩
    rcases hseason with h3 | h3 | h3
    · left
      refine ⟨h3, ?_⟩
      have hlit : String.mk [g, h, i] = "F/M" := String.ext (by rw [h3])
      simp [hlit]
    · right; left
      refine ⟨h3, ?_⟩
      have hlit : String.mk [g, h, i] = "M/J" := String.ext (by rw [h3])
      simp [hlit]
    · right; right
      refine ⟨h3, ?_⟩
      have hlit : String.mk [g, h, i] = "O/N" := String.ext (by rw [h3])
      simp [hlit]

/-- C1: the quick-code codec round-trips.  Decoding (`parseQuickCode`
plus the subject-code lookup of the quick-search path) the string
generated by `generateQuickCode` from an identifier whose subject is
registered and whose fields are valid (curriculum that of the subject,
paper type and variant single digits, season one of the three ids, year
two digits) returns the identifier; and generating from any successfully
decoded code returns the original string. -/
theorem C1_quick_code_roundtrip :
    (∀ (fc fs fp fvv fse fy : String) (subj : SubjectEntry),
       SUBJECTS.find? (fun s => s.id == fs) = some subj →
       fc = subj.curriculum →
       singleDigitTest fp = true →
       singleDigitTest fvv = true →
       (fse = "s" ∨ fse = "w" ∨ fse = "m") →
       fy.length = 2 → fy.data.all Char.isDigit = true →
       decodeQuickCode (generateQuickCode ⟨fc, fs, fp, fvv, fse, fy⟩) =
         some ⟨fc, fs, fp, fvv, fse, fy⟩) ∧
    (∀ (code : String) (fv : FormValues),
       decodeQuickCode code = some fv → generateQuickCode fv = code) := by
  have hslash : ("/" : String).data = ['/'] := rfl
  have hFM : ("F/M" : String).data = ['F', '/', 'M'] := rfl
  have hMJ : ("M/J" : String).data = ['M', '/', 'J'] := rfl
  have hON : ("O/N" : String).data = ['O', '/', 'N'] := rfl
  constructor
  · intro fc fs fp fvv fse fy subj hfind hcur hpt hvt hse hylen hydig
    obtain ⟨pc, hpd, hpdig⟩ := singleDigitTest_inv _ hpt
    obtain ⟨vc, hvd, hvdig⟩ := singleDigitTest_inv _ hvt
    obtain ⟨y1, y2, hyd⟩ := string_data_two fy hylen
    have hmem := List.mem_of_find?_eq_some hfind
    have hid : subj.id = fs := by
      have := List.find?_some hfind
      simpa using this
    obtain ⟨hclen, hcdig⟩ := subjects_code_props subj hmem
    obtain ⟨a, b, c, d, hcd⟩ := string_data_four subj.code hclen
    have habcd : [a, b, c, d].all Char.isDigit = true := by
      rw [hcd] at hcdig
      exact hcdig
    have hy12 : [y1, y2].all Char.isDigit = true := by
      rw [hyd] at hydig
      exact hydig
    have hcodeEq : String.mk [a, b, c, d] = subj.code := String.ext (by rw [hcd])
    have hfc := subjects_find_code subj hmem
    have hgen : ∀ (g h i : Char) (lbl : String), lbl.data = [g, h, i] →
        subj.code ++ "/" ++ (fp ++ fvv) ++ "/" ++ lbl ++ "/" ++ fy =
          String.mk [a, b, c, d, '/', pc, vc, '/', g, h, i, '/', y1, y2] := by
      intro g h i lbl hlbl
      apply String.ext
      simp [String.data_append, hcd, hpd, hvd, hyd, hslash, hlbl]
    rcases hse with hs | hs | hs
    · subst hs
      have hg : generateQuickCode ⟨fc, fs, fp, fvv, "s", fy⟩ =
          String.mk [a, b, c, d, '/', pc, vc, '/', 'M', '/', 'J', '/', y1, y2] := by
        unfold generateQuickCode
        dsimp only
        rw [hfind]
        exact hgen 'M' '/' 'J' "M/J" hMJ
      rw [hg]
      have hmatch := matchQuickCode_of_data _ a b c d pc vc 'M' '/' 'J' y1 y2
        rfl habcd (by simp [hpdig, hvdig]) (Or.inr (Or.inl rfl)) hy12
      unfold decodeQuickCode parseQuickCode
      rw [hmatch]
      simp only [charAtStr, hcodeEq, hfc]
      simp [hcur, hid, String.ext_iff, hpd, hvd, hyd]
    · subst hs
      have hg : generateQuickCode ⟨fc, fs, fp, fvv, "w", fy⟩ =
          String.mk [a, b, c, d, '/', pc, vc, '/', 'O', '/', 'N', '/', y1, y2] := by
        unfold generateQuickCode
        dsimp only
        rw [hfind]
        exact hgen 'O' '/' 'N' "O/N" hON
      rw [hg]
      have hmatch := matchQuickCode_of_data _ a b c d pc vc 'O' '/' 'N' y1 y2
        rfl habcd (by simp [hpdig, hvdig]) (Or.inr (Or.inr rfl)) hy12
      unfold decodeQuickCode parseQuickCode
      rw [hmatch]
      simp only [charAtStr, hcodeEq, hfc]
      simp [hcur, hid, String.ext_iff, hpd, hvd, hyd]
    · subst hs
      have hg : generateQuickCode ⟨fc, fs, fp, fvv, "m", fy⟩ =
          String.mk [a, b, c, d, '/', pc, vc, '/', 'F', '/', 'M', '/', y1, y2] := by
        unfold generateQuickCode
        dsimp only
        rw [hfind]
        exact hgen 'F' '/' 'M' "F/M" hFM
      rw [hg]
      have hmatch := matchQuickCode_of_data _ a b c d pc vc 'F' '/' 'M' y1 y2
        rfl habcd (by simp [hpdig, hvdig]) (Or.inl rfl) hy12
      unfold decodeQuickCode parseQuickCode
      rw [hmatch]
      simp only [charAtStr, hcodeEq, hfc]
      simp [hcur, hid, String.ext_iff, hpd, hvd, hyd]
  · intro code fv hdec
    unfold decodeQuickCode at hdec
    cases hparse : parseQuickCode code with
    | none =>
      rw [hparse] at hdec
      exact Option.noConfusion hdec
    | some p =>
      simp only [hparse] at hdec
      cases hfind : SUBJECTS.find? (fun s => s.code == p.subjectCode) with
      | none =>
        rw [hfind] at hdec
        exact Option.noConfusion hdec
      | some subj =>
        simp only [hfind, Option.some.injEq] at hdec
        subst hdec
        obtain ⟨a, b, c, d, e, f, g, h, i, j, k, hdata, hsc, hpt, hvt, hyy,
          hsea⟩ := parseQuickCode_inv code p hparse
        have hmem := List.mem_of_find?_eq_some hfind
        have hcode : subj.code = p.subjectCode := by
          have := List.find?_some hfind
          simpa using this
        have hfid := subjects_find_id subj hmem
        unfold generateQuickCode
        dsimp only
        rw [hfid]
        rcases hsea with ⟨h3, hs⟩ | ⟨h3, hs⟩ | ⟨h3, hs⟩ <;>
          simp only [List.cons.injEq, and_true] at h3 <;>
          obtain ⟨rfl, rfl, rfl⟩ := h3 <;>
          rw [hs] <;>
          apply String.ext <;>
          simp [String.data_append, hdata, hcode, hsc, hpt, hvt, hyy, hslash,
            hFM, hMJ, hON]

/-- Witness for C1 at the Physics identifier and its quick code. -/
theorem C1_witness :
    decodeQuickCode (generateQuickCode ⟨"cambridge-international-a-level",
        "physics-9702", "4", "2", "s", "20"⟩) =
      some ⟨"cambridge-international-a-level", "physics-9702", "4", "2", "s",
        "20"⟩ ∧
    generateQuickCode fvPhysics = "9702/42/M/J/20" := by
  obtain ⟨h1, h2⟩ := C1_quick_code_roundtrip
  constructor
  · exact h1 "cambridge-international-a-level" "physics-9702" "4" "2" "s" "20"
      ⟨"physics-9702", "9702", "Physics", "cambridge-international-a-level"⟩
      (by decide) rfl (by decide) (by decide) (Or.inl rfl) rfl (by decide)
  · exact h2 "9702/42/M/J/20" fvPhysics (by decide)

end CaiePaper
